import Mathlib

/-!
Verification of the Outcome Simulation Engine of the transaction-simulator
repository, a shallow embedding of `src/simulation_engine.py`
(class `SimulationEngine`).

Modelling conventions:
- Python strings are `String`; character-level operations work on
  `String.data` (Python `len` and indexing count code points, as a
  `List Char` does).
- Python `int` is `Int` (arbitrary precision in both languages).
- Python floats and `Decimal` values are modelled as exact rationals `ℚ`;
  `web3.from_wei(x, "ether")` is division by `10 ^ 18` and
  `from_wei(x, "gwei")` is division by `10 ^ 9`; `round(x, 4)` and the
  `"%.2f"` rendering use round-half-to-even, as Python does.
- `int(s)` and `int(s, 16)` are modelled for ASCII digits with an optional
  sign and surrounding whitespace.  Python additionally accepts underscore
  digit separators and non-ASCII decimal digits; no claim depends on those.
- The three RPC operations (`w3.eth.call`, `w3.eth.estimate_gas`,
  `w3.eth.gas_price`) are external I/O.  They are modelled by an oracle
  `RpcEnv` recording each query outcome: a returned value, or the message
  of the exception the query raises.  Theorems quantify over all oracles.
- A Python exception that is not handled by an inner `try` is modelled by
  `Except String`; the outermost `try/except` of `simulate_transaction`
  is the wrapper that eliminates the `Except` (so the Lean function is
  total by construction, exactly as the Python function never lets an
  exception escape its outer handler).
- The returned Python dict is modelled by the structure `SimResult`; the
  keys that are absent from the dict on the early-return paths are
  `Option` fields holding `none`.
- `rpcCalls` reports which RPC queries a run issued, for the claims that
  say no RPC call is attempted.
-/

/-! ### Python integer literals: `int(s)` and `int(s, 16)` -/

/-- Value of one digit character in the given base (10 or 16), as Python
`int(s, base)` accepts them: `0`-`9`, and for base 16 also `a`-`f`, `A`-`F`. -/
def digitVal (base : Nat) (c : Char) : Option Nat :=
  if '0' ≤ c ∧ c ≤ '9' then some (c.toNat - 48)
  else if base = 16 ∧ 'a' ≤ c ∧ c ≤ 'f' then some (c.toNat - 87)
  else if base = 16 ∧ 'A' ≤ c ∧ c ≤ 'F' then some (c.toNat - 55)
  else none

/-- Accumulate digit characters left to right; fails on a non-digit. -/
def digitsLoop (base : Nat) (acc : Nat) : List Char → Option Nat
  | [] => some acc
  | c :: cs =>
    match digitVal base c with
    | some d => digitsLoop base (base * acc + d) cs
    | none => none

/-- Drop one optional `0x` / `0X` prefix, as `int(s, 16)` does. -/
def dropHex0x : List Char → List Char
  | '0' :: 'x' :: cs => cs
  | '0' :: 'X' :: cs => cs
  | cs => cs

/-- The unsigned part of a Python integer literal: for base 16 an optional
`0x` prefix, then a non-empty run of digits. -/
def pyIntNat (base : Nat) (cs : List Char) : Option Nat :=
  let ds := if base = 16 then dropHex0x cs else cs
  if ds = [] then none else digitsLoop base 0 ds

/-- A Python integer literal without surrounding whitespace: an optional
sign followed by the unsigned part. -/
def pyIntChars (base : Nat) (cs : List Char) : Option Int :=
  match cs with
  | [] => (pyIntNat base []).map (fun k => (k : Int))
  | c :: rest =>
    if c = '-' then (pyIntNat base rest).map (fun k => -(k : Int))
    else if c = '+' then (pyIntNat base rest).map (fun k => (k : Int))
    else (pyIntNat base (c :: rest)).map (fun k => (k : Int))

/-- Python `str.strip()` at the `List Char` level: remove leading and
trailing whitespace. -/
def pyStripChars (cs : List Char) : List Char :=
  List.rdropWhile Char.isWhitespace (cs.dropWhile Char.isWhitespace)

/-- Python `str.strip()`. -/
def pyStrip (s : String) : String := ⟨pyStripChars s.data⟩

/-- Python `int(s, base)` for base 10 or 16: `none` models the
`ValueError` it raises on malformed input. -/
def pyInt (base : Nat) (s : String) : Option Int :=
  pyIntChars base (pyStripChars s.data)

/-- Python `s.startswith("0x")`. -/
def startsWith0x (s : String) : Bool :=
  match s.data with
  | c1 :: c2 :: _ => c1 == '0' && c2 == 'x'
  | _ => false

/-- Line 105 (and 111, 113) of `simulation_engine.py`:
`int(value, 16) if value.startswith("0x") else int(value)`, with the
`ValueError` of a failed parse carried as an `Except.error` message
(it is caught only by the outermost handler). -/
def parseHexOrDec (s : String) : Except String Int :=
  if startsWith0x s then
    match pyInt 16 s with
    | some n => Except.ok n
    | none => Except.error ("invalid literal for int() with base 16: " ++ s)
  else
    match pyInt 10 s with
    | some n => Except.ok n
    | none => Except.error ("invalid literal for int() with base 10: " ++ s)

/-- Lines 110-113: `if gas: tx["gas"] = ...` — a missing or empty string
(Python falsy) is skipped, otherwise it is parsed hex-or-decimal. -/
def parseOptNum : Option String → Except String (Option Int)
  | none => Except.ok none
  | some s => if s = "" then Except.ok none else (parseHexOrDec s).map some

/-! ### Address normalization (lines 83-89) -/

/-- `normalize_address`: strip, then require a `0x` prefix and length
exactly 42; the raised `ValueError` message is the `Except.error`. -/
def normalize_address (addr : String) : Except String String :=
  let a := pyStrip addr
  if startsWith0x a = false ∨ a.data.length ≠ 42 then
    Except.error ("Invalid address format: " ++ a)
  else
    Except.ok a

/-! ### Data model -/

/-- One predicted transfer (the dict built in `_analyze_asset_changes`,
lines 187-195).  The Python keys `from` / `to` are `from_addr` /
`to_addr` here (`from` is reserved in Lean). -/
structure AssetChange where
  asset_type : String
  change_type : String
  from_addr : String
  to_addr : String
  amount_wei : Int
  amount_eth : ℚ
  symbol : String
  deriving DecidableEq, Repr

/-- The dict returned by `simulate_transaction`.  `success`, `error` and
`chain_id` are present on every return path; every other key is missing
(`none`) on the three early-failure paths (lines 77-81, 95-99, 173-177). -/
structure SimResult where
  success : Bool
  error : Option String
  chain_id : Int
  gas_used : Option Nat
  gas_cost_eth : Option ℚ
  gas_cost_usd : Option ℚ
  gas_price_gwei : Option ℚ
  asset_changes : Option (List AssetChange)
  warnings : Option (List String)
  simulation_method : Option String
  deriving DecidableEq, Repr

/-- The three read-only RPC queries. -/
inductive RpcCall where
  | ethCall
  | estimateGas
  | gasPrice
  deriving DecidableEq, Repr

instance exceptDecEq {ε α : Type} [DecidableEq ε] [DecidableEq α] :
    DecidableEq (Except ε α) := fun a b =>
  match a, b with
  | Except.ok x, Except.ok y =>
    if h : x = y then isTrue (by rw [h]) else
      isFalse (fun hh => h (Except.ok.inj hh))
  | Except.ok _, Except.error _ => isFalse (fun hh => Except.noConfusion hh)
  | Except.error _, Except.ok _ => isFalse (fun hh => Except.noConfusion hh)
  | Except.error x, Except.error y =>
    if h : x = y then isTrue (by rw [h]) else
      isFalse (fun hh => h (Except.error.inj hh))

/-- Oracle for the three RPC queries: each is either a returned value or
the message of the exception it raises. -/
structure RpcEnv where
  callResult : Except String Unit
  gasEstimateR : Except String Nat
  gasPriceR : Except String Nat
  deriving DecidableEq, Repr

/-- The arguments of `simulate_transaction` (lines 42-51). -/
structure SimInputs where
  chain_id : Int
  from_address : String
  to_address : String
  value : String
  data : String
  gas : Option String
  gas_price : Option String
  deriving DecidableEq, Repr

/-- The engine's constructor argument: the chain-id → RPC-URL mapping.
A Python dict has unique keys; theorems that need this state it as a
`Nodup` hypothesis on the key list. -/
structure SimulationEngine where
  rpc_urls : List (Int × String)
  deriving DecidableEq, Repr

/-- `__init__` (lines 24-40): a Web3 instance is created for every chain
whose URL is non-empty (`if rpc_url:`). -/
def w3_instances (eng : SimulationEngine) : List (Int × String) :=
  eng.rpc_urls.filter (fun p => !(p.2 == ""))

/-- `self.w3_instances.get(chain_id)` is truthy (line 75-76). -/
def hasW3 (eng : SimulationEngine) (cid : Int) : Bool :=
  ((w3_instances eng).lookup cid).isSome

/-! ### Price oracle (lines 202-214) -/

/-- `_get_eth_price`: static per-chain price table, default 3000. -/
def get_eth_price (chain_id : Int) : ℚ :=
  if chain_id = 1 then 3000
  else if chain_id = 10 then 3000
  else if chain_id = 56 then 600
  else if chain_id = 137 then 1
  else if chain_id = 42161 then 3000
  else if chain_id = 8453 then 3000
  else if chain_id = 43114 then 40
  else 3000

/-! ### Number rendering used in warnings and rounding of the USD cost -/

/-- Round to the nearest integer, ties to even — the rounding of Python's
`round` and of `"%.2f"` formatting. -/
def roundHalfEven (q : ℚ) : ℤ :=
  let f := ⌊q⌋
  if q - (f : ℚ) < 1 / 2 then f
  else if (1 : ℚ) / 2 < q - (f : ℚ) then f + 1
  else if f % 2 = 0 then f else f + 1

/-- `round(x, 4)` (line 162). -/
def roundTo4 (q : ℚ) : ℚ := (roundHalfEven (q * 10000) : ℚ) / 10000

/-- Python `f"{x:.2f}"`: fixed two decimal places. -/
def fmtFixed2 (q : ℚ) : String :=
  let n := roundHalfEven (q * 100)
  let sign := if n < 0 then "-" else ""
  let m := n.natAbs
  let cents := m % 100
  sign ++ toString (m / 100) ++ "." ++
    (if cents < 10 then "0" else "") ++ toString cents

/-- Insert thousands separators into a reversed digit list. -/
def revGroup : List Char → Nat → List Char
  | [], _ => []
  | c :: cs, k =>
    if k = 2 ∧ cs ≠ [] then c :: ',' :: revGroup cs 0
    else c :: revGroup cs (k + 1)

/-- Python `f"{n:,}"`: decimal digits with thousands separators. -/
def fmtComma (n : Nat) : String :=
  ⟨(revGroup (toString n).data.reverse 0).reverse⟩

/-! ### Warning generator (`_generate_warnings`, lines 216-241) -/

def warnFail : String := "⚠️ Transaction will likely FAIL - Do not execute"

def warnHighGas (gasStr : String) : String :=
  "⚠️ Very high gas usage: " ++ gasStr ++ " gas"

def warnHighCost (usdStr : String) : String :=
  "⚠️ High gas cost: $" ++ usdStr

def warnExtreme : String := "🚫 EXTREMELY HIGH GAS COST - Verify transaction details"

def warnNoTransfers : String := "ℹ️ No asset transfers detected"

/-- `_generate_warnings`: the five `if`-appends, in source order. -/
def generate_warnings (success : Bool) (gas_estimate : Nat) (gas_cost_usd : ℚ)
    (asset_changes : List AssetChange) : List String :=
  (if success = false then [warnFail] else []) ++
  (if 1000000 < gas_estimate then [warnHighGas (fmtComma gas_estimate)] else []) ++
  (if 10 < gas_cost_usd then [warnHighCost (fmtFixed2 gas_cost_usd)] else []) ++
  (if 50 < gas_cost_usd then [warnExtreme] else []) ++
  (if asset_changes.length = 0 then [warnNoTransfers] else [])

/-! ### Asset change analyzer (`_analyze_asset_changes`, lines 179-200) -/

/-- Emit one NATIVE/TRANSFER change when `value > 0`; the call data is
received but never decoded (the TODO at line 197). -/
def analyze_asset_changes (from_addr to_addr : String) (value : Int)
    (data : String) : List AssetChange :=
  if 0 < value then
    [{ asset_type := "NATIVE", change_type := "TRANSFER",
       from_addr := from_addr, to_addr := to_addr,
       amount_wei := value, amount_eth := (value : ℚ) / 10 ^ 18,
       symbol := "ETH" }]
  else []

/-! ### The RPC phase of `simulate_transaction` (lines 115-169) -/

/-- `simulation_success` from the `eth_call` step (lines 116-123). -/
def simCallSuccess (env : RpcEnv) : Bool :=
  match env.callResult with
  | Except.ok _ => true
  | Except.error _ => false

/-- `error_msg` right after the `eth_call` step. -/
def simCallError (env : RpcEnv) : Option String :=
  match env.callResult with
  | Except.ok _ => none
  | Except.error m => some m

/-- Python falsiness of an optional string: `None` and `""` are falsy. -/
def pyFalsyStr : Option String → Bool
  | none => true
  | some s => s = ""

/-- `gas_estimate` after the estimate-gas step (lines 126-132): the
reported units, or the 21000 fallback on failure. -/
def gasEstimateUsed (env : RpcEnv) : Nat :=
  match env.gasEstimateR with
  | Except.ok g => g
  | Except.error _ => 21000

/-- `error_msg` after the estimate-gas step: on failure the gas message is
written only when the current `error_msg` is falsy (`if not error_msg:`). -/
def errorAfterGas (env : RpcEnv) : Option String :=
  match env.gasEstimateR with
  | Except.ok _ => simCallError env
  | Except.error m =>
    if pyFalsyStr (simCallError env) then some ("Gas estimation failed: " ++ m)
    else simCallError env

/-- `current_gas_price` (lines 135-138): reported price, or the
`to_wei(20, "gwei")` fallback. -/
def gasPriceUsed (env : RpcEnv) : Nat :=
  match env.gasPriceR with
  | Except.ok p => p
  | Except.error _ => 20 * 10 ^ 9

/-- `gas_cost_eth` (lines 141-142). -/
def gasCostEth (env : RpcEnv) : ℚ :=
  ((gasEstimateUsed env * gasPriceUsed env : Nat) : ℚ) / 10 ^ 18

/-- `gas_cost_usd` before rounding (line 146). -/
def usdRaw (chain_id : Int) (env : RpcEnv) : ℚ :=
  gasCostEth env * get_eth_price chain_id

/-- Lines 115-169: the three fault-tolerant queries, cost computation,
asset analysis, warnings, and the fully-populated result dict. -/
def rpcPhase (chain_id : Int) (from_addr to_addr : String) (value : Int)
    (data : String) (env : RpcEnv) : SimResult :=
  let asset_changes := analyze_asset_changes from_addr to_addr value data
  { success := simCallSuccess env
    error := errorAfterGas env
    chain_id := chain_id
    gas_used := some (gasEstimateUsed env)
    gas_cost_eth := some (gasCostEth env)
    gas_cost_usd := some (roundTo4 (usdRaw chain_id env))
    gas_price_gwei := some ((gasPriceUsed env : ℚ) / 10 ^ 9)
    asset_changes := some asset_changes
    warnings := some (generate_warnings (simCallSuccess env)
      (gasEstimateUsed env) (usdRaw chain_id env) asset_changes)
    simulation_method := some "eth_call" }

/-- The three-key dict of the early-return paths (lines 77-81, 95-99,
173-177): only `success`, `error` and `chain_id` are present, and
`success` is `False` on all of them. -/
def failResult (error : String) (chain_id : Int) : SimResult :=
  { success := false, error := some error, chain_id := chain_id,
    gas_used := none, gas_cost_eth := none, gas_cost_usd := none,
    gas_price_gwei := none, asset_changes := none, warnings := none,
    simulation_method := none }

/-- The body of `simulate_transaction` inside the outer `try` (lines
74-169), together with the list of RPC queries it issued.  An
`Except.error` is an exception the body raises into the outer handler
(only the three `int(...)` parses can do that). -/
def simulate_body (eng : SimulationEngine) (inp : SimInputs) (env : RpcEnv) :
    Except String SimResult × List RpcCall :=
  if hasW3 eng inp.chain_id = false then
    (Except.ok (failResult ("Chain " ++ toString inp.chain_id ++ " not supported")
      inp.chain_id), [])
  else
    match normalize_address inp.from_address with
    | Except.error e =>
      (Except.ok (failResult ("Invalid address: " ++ e) inp.chain_id), [])
    | Except.ok from_addr =>
      match normalize_address inp.to_address with
      | Except.error e =>
        (Except.ok (failResult ("Invalid address: " ++ e) inp.chain_id), [])
      | Except.ok to_addr =>
        match parseHexOrDec inp.value with
        | Except.error e => (Except.error e, [])
        | Except.ok value =>
          match parseOptNum inp.gas with
          | Except.error e => (Except.error e, [])
          | Except.ok _gas =>
            match parseOptNum inp.gas_price with
            | Except.error e => (Except.error e, [])
            | Except.ok _gas_price =>
              (Except.ok (rpcPhase inp.chain_id from_addr to_addr value inp.data env),
               [RpcCall.ethCall, RpcCall.estimateGas, RpcCall.gasPrice])

/-- `simulate_transaction` with its instrumentation: the outer
`try/except` (lines 74, 171-177) converts an escaped exception into the
generic `Simulation failed: ...` dict. -/
def simulate_transaction_instr (eng : SimulationEngine) (inp : SimInputs)
    (env : RpcEnv) : SimResult × List RpcCall :=
  match simulate_body eng inp env with
  | (Except.ok r, calls) => (r, calls)
  | (Except.error e, calls) =>
    (failResult ("Simulation failed: " ++ e) inp.chain_id, calls)

/-- `simulate_transaction` (lines 42-177). -/
def simulate_transaction (eng : SimulationEngine) (inp : SimInputs)
    (env : RpcEnv) : SimResult :=
  (simulate_transaction_instr eng inp env).1

/-- The RPC queries a run issues. -/
def rpcCalls (eng : SimulationEngine) (inp : SimInputs) (env : RpcEnv) :
    List RpcCall :=
  (simulate_transaction_instr eng inp env).2

/-! ### Derived predicates used by the theorems -/

def exceptIsOk {α : Type} : Except String α → Bool
  | Except.ok _ => true
  | Except.error _ => false

/-- A request reaches the RPC phase: the chain is registered and all five
normalization and parsing steps succeed. -/
def reachesRpc (eng : SimulationEngine) (inp : SimInputs) : Bool :=
  hasW3 eng inp.chain_id &&
  exceptIsOk (normalize_address inp.from_address) &&
  exceptIsOk (normalize_address inp.to_address) &&
  exceptIsOk (parseHexOrDec inp.value) &&
  exceptIsOk (parseOptNum inp.gas) &&
  exceptIsOk (parseOptNum inp.gas_price)

/-- Every field that the early-return dicts omit is present. -/
def allDefined (r : SimResult) : Bool :=
  r.gas_used.isSome && r.gas_cost_eth.isSome && r.gas_cost_usd.isSome &&
  r.gas_price_gwei.isSome && r.asset_changes.isSome && r.warnings.isSome &&
  r.simulation_method.isSome

/-! ### Concrete engines, inputs and oracles used by witnesses -/

def engEx : SimulationEngine := ⟨[(1, "https://rpc.example")]⟩

def addrA : String := "0xaaaaaaaaaaaaaaaaaaaaaaaaaaaaaaaaaaaaaaaa"

def addrB : String := "0xbbbbbbbbbbbbbbbbbbbbbbbbbbbbbbbbbbbbbbbb"

def inpOk : SimInputs := ⟨1, addrA, addrB, "0x0", "0x", none, none⟩

def inp999 : SimInputs := ⟨999, addrA, addrB, "0x0", "0x", none, none⟩

def inpNeg : SimInputs := ⟨1, addrA, addrB, "-5", "0x", none, none⟩

def inpBadValue : SimInputs := ⟨1, addrA, addrB, "zz", "0x", none, none⟩

def inpBadAddr : SimInputs := ⟨1, "0xabc", addrB, "0x0", "0x", none, none⟩

def inp989680 : SimInputs := ⟨1, addrA, addrB, "0x989680", "0x", none, none⟩

def envAllOk : RpcEnv := ⟨Except.ok (), Except.ok 21000, Except.ok 20000000000⟩

def envGasFail : RpcEnv := ⟨Except.ok (), Except.error "boom", Except.ok 20000000000⟩

def envLow : RpcEnv := ⟨Except.ok (), Except.ok 100, Except.ok 20000000000⟩

def envEmptyErr : RpcEnv := ⟨Except.error "", Except.error "boom", Except.ok 20000000000⟩

def envBig : RpcEnv := ⟨Except.ok (), Except.ok 3333340000000000, Except.ok 1⟩

def env30 : RpcEnv := ⟨Except.ok (), Except.ok 10000000000000000, Except.ok 1⟩

/-- The asset change emitted for a 10,000,000-wei transfer between the
two example addresses. -/
def acEx : AssetChange :=
  { asset_type := "NATIVE", change_type := "TRANSFER",
    from_addr := addrA, to_addr := addrB,
    amount_wei := 10000000, amount_eth := (10000000 : ℚ) / 10 ^ 18,
    symbol := "ETH" }

/-- The fourth character of a warning string distinguishes the five
warning kinds (T, V, H, X, N). -/
def probe3 (s : String) : Option Char := s.data[3]?

/-! ### Helper lemmas -/

theorem data_append (a b : String) : (a ++ b).data = a.data ++ b.data := rfl

theorem probe3_warnHighGas (x : String) : probe3 (warnHighGas x) = some 'V' := by
  unfold probe3 warnHighGas
  rw [data_append, data_append]
  rw [List.getElem?_append_left (by simp), List.getElem?_append_left (by decide)]
  decide

theorem probe3_warnHighCost (x : String) : probe3 (warnHighCost x) = some 'H' := by
  unfold probe3 warnHighCost
  rw [data_append]
  rw [List.getElem?_append_left (by decide)]
  decide

theorem warnHighCost_ne_fail (x : String) : warnHighCost x ≠ warnFail := by
  intro h
  have h3 := congrArg probe3 h
  rw [probe3_warnHighCost] at h3
  have hT : probe3 warnFail = some 'T' := by decide
  rw [hT] at h3
  exact absurd h3 (by decide)

theorem warnHighCost_ne_highGas (x y : String) : warnHighCost x ≠ warnHighGas y := by
  intro h
  have h3 := congrArg probe3 h
  rw [probe3_warnHighCost, probe3_warnHighGas] at h3
  exact absurd h3 (by decide)

theorem warnHighCost_ne_extreme (x : String) : warnHighCost x ≠ warnExtreme := by
  intro h
  have h3 := congrArg probe3 h
  rw [probe3_warnHighCost] at h3
  have hX : probe3 warnExtreme = some 'X' := by decide
  rw [hX] at h3
  exact absurd h3 (by decide)

theorem warnHighCost_ne_noTransfers (x : String) : warnHighCost x ≠ warnNoTransfers := by
  intro h
  have h3 := congrArg probe3 h
  rw [probe3_warnHighCost] at h3
  have hN : probe3 warnNoTransfers = some 'N' := by decide
  rw [hN] at h3
  exact absurd h3 (by decide)

theorem warnExtreme_ne_fail : warnExtreme ≠ warnFail := by decide

theorem warnExtreme_ne_noTransfers : warnExtreme ≠ warnNoTransfers := by decide

theorem warnExtreme_ne_highGas (y : String) : warnExtreme ≠ warnHighGas y := by
  intro h
  have h3 := congrArg probe3 h
  rw [probe3_warnHighGas] at h3
  have hX : probe3 warnExtreme = some 'X' := by decide
  rw [hX] at h3
  exact absurd h3 (by decide)

theorem warnExtreme_ne_highCost (y : String) : warnExtreme ≠ warnHighCost y := by
  intro h
  exact warnHighCost_ne_extreme y h.symm

theorem mem_ite_singleton {α : Type} {x w : α} {c : Prop} [Decidable c]
    (h : x ∈ (if c then [w] else [])) : x = w := by
  split at h
  · exact List.mem_singleton.mp h
  · exact absurd h (List.not_mem_nil x)

/-- The high-cost warning is emitted exactly when the (pre-rounding) USD
cost is strictly above 10. -/
theorem mem_warnings_highCost (s : Bool) (g : Nat) (u : ℚ) (a : List AssetChange) :
    (warnHighCost (fmtFixed2 u) ∈ generate_warnings s g u a) ↔ 10 < u := by
  unfold generate_warnings
  by_cases h10 : (10 : ℚ) < u
  · simp [h10]
  · have h50 : ¬ (50 : ℚ) < u := by intro h; exact h10 (by linarith)
    simp only [if_neg h10, if_neg h50, List.append_nil, List.nil_append]
    constructor
    · intro hm
      exfalso
      simp only [List.mem_append] at hm
      rcases hm with (hm | hm) | hm
      · exact warnHighCost_ne_fail _ (mem_ite_singleton hm)
      · exact warnHighCost_ne_highGas _ _ (mem_ite_singleton hm)
      · exact warnHighCost_ne_noTransfers _ (mem_ite_singleton hm)
    · intro h
      exact absurd h h10

/-- The extreme-cost warning is emitted exactly when the (pre-rounding)
USD cost is strictly above 50. -/
theorem mem_warnings_extreme (s : Bool) (g : Nat) (u : ℚ) (a : List AssetChange) :
    (warnExtreme ∈ generate_warnings s g u a) ↔ 50 < u := by
  unfold generate_warnings
  by_cases h50 : (50 : ℚ) < u
  · simp [h50]
  · simp only [if_neg h50, List.append_nil, List.nil_append]
    constructor
    · intro hm
      exfalso
      simp only [List.mem_append] at hm
      rcases hm with ((hm | hm) | hm) | hm
      · exact warnExtreme_ne_fail (mem_ite_singleton hm)
      · exact warnExtreme_ne_highGas _ (mem_ite_singleton hm)
      · exact warnExtreme_ne_highCost _ (mem_ite_singleton hm)
      · exact warnExtreme_ne_noTransfers (mem_ite_singleton hm)
    · intro h
      exact absurd h h50

theorem opt_append_sublist {α : Type} {c : Prop} [Decidable c] (w : α)
    {l L : List α} (h : List.Sublist l L) :
    List.Sublist ((if c then [w] else []) ++ l) (w :: L) := by
  split
  · simpa using List.Sublist.cons₂ w h
  · simpa using List.Sublist.cons w h

theorem exceptIsOk_elim {α : Type} {x : Except String α}
    (h : exceptIsOk x = true) : ∃ a, x = Except.ok a := by
  cases x with
  | ok a => exact ⟨a, rfl⟩
  | error e => simp [exceptIsOk] at h

/-- When the chain is registered and normalization and parsing succeed,
`simulate_transaction` runs the full RPC phase and issues the three
queries. -/
theorem sim_eq_rpcPhase (eng : SimulationEngine) (inp : SimInputs) (env : RpcEnv)
    (fa ta : String) (v : Int) (g gp : Option Int)
    (h1 : hasW3 eng inp.chain_id = true)
    (h2 : normalize_address inp.from_address = Except.ok fa)
    (h3 : normalize_address inp.to_address = Except.ok ta)
    (h4 : parseHexOrDec inp.value = Except.ok v)
    (h5 : parseOptNum inp.gas = Except.ok g)
    (h6 : parseOptNum inp.gas_price = Except.ok gp) :
    simulate_transaction eng inp env = rpcPhase inp.chain_id fa ta v inp.data env ∧
    rpcCalls eng inp env = [RpcCall.ethCall, RpcCall.estimateGas, RpcCall.gasPrice] := by
  unfold simulate_transaction rpcCalls simulate_transaction_instr simulate_body
  rw [h1, h2, h3, h4, h5, h6]
  simp

theorem reaches_elim (eng : SimulationEngine) (inp : SimInputs)
    (hr : reachesRpc eng inp = true) :
    hasW3 eng inp.chain_id = true ∧
    (∃ fa, normalize_address inp.from_address = Except.ok fa) ∧
    (∃ ta, normalize_address inp.to_address = Except.ok ta) ∧
    (∃ v, parseHexOrDec inp.value = Except.ok v) ∧
    (∃ g, parseOptNum inp.gas = Except.ok g) ∧
    (∃ gp, parseOptNum inp.gas_price = Except.ok gp) := by
  unfold reachesRpc at hr
  simp only [Bool.and_eq_true] at hr
  obtain ⟨⟨⟨⟨⟨hW, hf⟩, ht⟩, hv⟩, hg⟩, hgp⟩ := hr
  exact ⟨hW, exceptIsOk_elim hf, exceptIsOk_elim ht, exceptIsOk_elim hv,
    exceptIsOk_elim hg, exceptIsOk_elim hgp⟩

/-- A request that does not reach the RPC phase ends on one of the
three-key early-failure dicts. -/
theorem sim_not_reaches (eng : SimulationEngine) (inp : SimInputs) (env : RpcEnv)
    (hr : reachesRpc eng inp = false) :
    ∃ msg, simulate_transaction eng inp env = failResult msg inp.chain_id := by
  unfold simulate_transaction simulate_transaction_instr simulate_body
  unfold reachesRpc at hr
  cases hW : hasW3 eng inp.chain_id with
  | false =>
    exact ⟨"Chain " ++ toString inp.chain_id ++ " not supported", by simp⟩
  | true =>
    rw [hW] at hr
    cases hf : normalize_address inp.from_address with
    | error e => exact ⟨"Invalid address: " ++ e, by simp⟩
    | ok fa =>
      cases ht : normalize_address inp.to_address with
      | error e => exact ⟨"Invalid address: " ++ e, by simp⟩
      | ok ta =>
        cases hv : parseHexOrDec inp.value with
        | error e => exact ⟨"Simulation failed: " ++ e, by simp⟩
        | ok v =>
          cases hg : parseOptNum inp.gas with
          | error e => exact ⟨"Simulation failed: " ++ e, by simp⟩
          | ok g =>
            cases hgp : parseOptNum inp.gas_price with
            | error e => exact ⟨"Simulation failed: " ++ e, by simp⟩
            | ok gp =>
              exfalso
              rw [hf, ht, hv, hg, hgp] at hr
              simp [exceptIsOk] at hr

theorem lookup_filter_eq_none (cid : Int) (t : List (Int × String))
    (p : Int × String → Bool) (h : cid ∉ t.map Prod.fst) :
    (t.filter p).lookup cid = none := by
  induction t with
  | nil => rfl
  | cons a rest ih =>
    simp only [List.map_cons, List.mem_cons, not_or] at h
    obtain ⟨ha, hrest⟩ := h
    simp only [List.filter_cons]
    split
    · obtain ⟨k, v⟩ := a
      simp only at ha
      have hbeq : (cid == k) = false := by
        simp only [beq_eq_false_iff_ne]
        exact fun hh => ha hh
      simp only [List.lookup, hbeq]
      exact ih hrest
    · exact ih hrest

/-- Under the dict invariant (no duplicate keys), a chain that is absent
from `rpc_urls` or mapped to an empty URL has no Web3 instance. -/
theorem hasW3_false_of_unregistered (eng : SimulationEngine) (cid : Int)
    (hnd : (eng.rpc_urls.map Prod.fst).Nodup)
    (h : eng.rpc_urls.lookup cid = none ∨ eng.rpc_urls.lookup cid = some "") :
    hasW3 eng cid = false := by
  unfold hasW3 w3_instances
  suffices hs : (eng.rpc_urls.filter (fun p => !(p.2 == ""))).lookup cid = none by
    rw [hs]; rfl
  revert hnd h
  induction eng.rpc_urls with
  | nil => intro _ _; rfl
  | cons a rest ih =>
    intro hnd h
    obtain ⟨k, v⟩ := a
    simp only [List.map_cons, List.nodup_cons] at hnd
    obtain ⟨hk, hnd'⟩ := hnd
    by_cases hck : cid = k
    · subst hck
      have hbeq : (cid == cid) = true := by simp
      rcases h with h | h
      · exfalso
        simp only [List.lookup, hbeq] at h
        exact Option.noConfusion h
      · have hv : v = "" := by
          simp only [List.lookup, hbeq] at h
          exact Option.some.inj h
        subst hv
        simp only [List.filter_cons]
        have : (!(("" : String) == "")) = false := by decide
        rw [this]
        simp only [Bool.false_eq_true, if_false]
        exact lookup_filter_eq_none cid rest _ hk
    · have hbeq : (cid == k) = false := by
        simp only [beq_eq_false_iff_ne]; exact hck
      simp only [List.lookup, hbeq] at h
      simp only [List.filter_cons]
      split
      · simp only [List.lookup, hbeq]
        exact ih hnd' h
      · exact ih hnd' h

theorem startsWith0x_elim {s : String} (h : startsWith0x s = true) :
    ∃ t, s.data = '0' :: 'x' :: t := by
  unfold startsWith0x at h
  rcases hd : s.data with _ | ⟨c1, _ | ⟨c2, t⟩⟩ <;> rw [hd] at h
  · simp at h
  · simp at h
  · simp only [Bool.and_eq_true, beq_iff_eq] at h
    obtain ⟨h1, h2⟩ := h
    subst h1
    subst h2
    exact ⟨t, rfl⟩

theorem pyStripChars_0x (t : List Char) :
    ∃ u, pyStripChars ('0' :: 'x' :: t) = '0' :: u := by
  unfold pyStripChars
  rw [List.dropWhile_cons]
  have h0 : Char.isWhitespace '0' = false := by decide
  rw [h0]
  simp only [Bool.false_eq_true, if_false]
  have hne : List.rdropWhile Char.isWhitespace ('0' :: 'x' :: t) ≠ [] := by
    rw [Ne, List.rdropWhile_eq_nil_iff]
    push_neg
    exact ⟨'0', by simp, by decide⟩
  obtain ⟨suf, hsuf⟩ := List.rdropWhile_prefix Char.isWhitespace ('0' :: 'x' :: t)
  cases hr : List.rdropWhile Char.isWhitespace ('0' :: 'x' :: t) with
  | nil => exact absurd hr hne
  | cons a u =>
    rw [hr] at hsuf
    simp only [List.cons_append] at hsuf
    have ha : a = '0' := (List.cons.inj hsuf).1
    subst ha
    exact ⟨u, rfl⟩

/-! ### Claims -/

/-- Claim C1: for every input, `simulate_transaction` returns a result
object with `success` and `error` fields and never raises an exception
past its boundary (the embedding is total by construction, mirroring the
outermost `try/except`); any error not in the anticipated failure
categories — i.e. any exception the body raises into the outer handler —
is converted into a result with `success = false` and the generic
message `Simulation failed: ...`. -/
theorem c1_outer_boundary (eng : SimulationEngine) (inp : SimInputs)
    (env : RpcEnv) (e : String)
    (h : (simulate_body eng inp env).1 = Except.error e) :
    (simulate_transaction eng inp env).success = false ∧
    (simulate_transaction eng inp env).error =
      some ("Simulation failed: " ++ e) := by
  unfold simulate_transaction simulate_transaction_instr
  rcases hb : simulate_body eng inp env with ⟨r, calls⟩
  rw [hb] at h
  have hr : r = Except.error e := h
  subst hr
  simp [failResult]

theorem c1_outer_boundary_witness :
    (simulate_transaction engEx inpBadValue envAllOk).success = false ∧
    (simulate_transaction engEx inpBadValue envAllOk).error =
      some ("Simulation failed: " ++ "invalid literal for int() with base 10: zz") :=
  c1_outer_boundary engEx inpBadValue envAllOk
    "invalid literal for int() with base 10: zz" (by decide)

/-- Claim C2 as stated is false: on a request that fails before the RPC
phase (here: unsupported chain 999) the engine returns the three-key
dict, which has no value at all for `gas_used`, `asset_changes`,
`warnings` and the other pipeline fields. -/
theorem c2_counterexample :
    allDefined (simulate_transaction engEx inp999 envAllOk) = false ∧
    (simulate_transaction engEx inp999 envAllOk).asset_changes = none ∧
    (simulate_transaction engEx inp999 envAllOk).warnings = none := by
  exact ⟨by decide, by decide, by decide⟩

/-- Claim C2, amended: results of requests that reach the RPC phase have
a defined value for every `SimulationResult` field; requests that fail
earlier (unsupported chain, invalid address, unparseable numeric field)
return a partial result that defines only `success`, `error` and the
chain identifier — the remaining fields are absent, not defaulted, at
the engine boundary. -/
theorem c2_amended (eng : SimulationEngine) (inp : SimInputs) (env : RpcEnv) :
    (reachesRpc eng inp = true →
       allDefined (simulate_transaction eng inp env) = true) ∧
    (reachesRpc eng inp = false →
       allDefined (simulate_transaction eng inp env) = false ∧
       (simulate_transaction eng inp env).error.isSome = true) := by
  constructor
  · intro hr
    obtain ⟨hW, ⟨fa, hf⟩, ⟨ta, ht⟩, ⟨v, hv⟩, ⟨g, hg⟩, ⟨gp, hgp⟩⟩ :=
      reaches_elim eng inp hr
    rw [(sim_eq_rpcPhase eng inp env fa ta v g gp hW hf ht hv hg hgp).1]
    simp [allDefined, rpcPhase]
  · intro hr
    obtain ⟨msg, hmsg⟩ := sim_not_reaches eng inp env hr
    rw [hmsg]
    simp [allDefined, failResult]

theorem c2_amended_witness :
    allDefined (simulate_transaction engEx inpOk envAllOk) = true :=
  (c2_amended engEx inpOk envAllOk).1 (by decide)

/-- Claim C3: for every chain identifier that is absent from the
caller-supplied mapping or registered with an empty endpoint (the dict
invariant of unique keys is the `Nodup` hypothesis), the result has
`success = false` and an error saying the chain is not supported, and no
RPC operation is attempted. -/
theorem c3_unsupported_chain (eng : SimulationEngine) (inp : SimInputs)
    (env : RpcEnv)
    (hnd : (eng.rpc_urls.map Prod.fst).Nodup)
    (h : eng.rpc_urls.lookup inp.chain_id = none ∨
         eng.rpc_urls.lookup inp.chain_id = some "") :
    (simulate_transaction eng inp env).success = false ∧
    (simulate_transaction eng inp env).error =
      some ("Chain " ++ toString inp.chain_id ++ " not supported") ∧
    rpcCalls eng inp env = [] := by
  have hW : hasW3 eng inp.chain_id = false :=
    hasW3_false_of_unregistered eng inp.chain_id hnd h
  unfold simulate_transaction rpcCalls simulate_transaction_instr simulate_body
  rw [hW]
  simp [failResult]

theorem c3_unsupported_chain_witness :
    (simulate_transaction engEx inp999 envAllOk).success = false ∧
    (simulate_transaction engEx inp999 envAllOk).error =
      some ("Chain " ++ toString (999 : Int) ++ " not supported") ∧
    rpcCalls engEx inp999 envAllOk = [] :=
  c3_unsupported_chain engEx inp999 envAllOk (by decide) (Or.inl (by decide))

/-- Claim C4: for a supported chain, every `from_address` or `to_address`
that fails the shape check (after stripping: a `0x` prefix and length
exactly 42 — case is not inspected) produces `success = false` with an
invalid-address error, and no RPC call is issued. -/
theorem c4_invalid_address (eng : SimulationEngine) (inp : SimInputs)
    (env : RpcEnv)
    (hW : hasW3 eng inp.chain_id = true)
    (h : (startsWith0x (pyStrip inp.from_address) = false ∨
          (pyStrip inp.from_address).data.length ≠ 42) ∨
         (startsWith0x (pyStrip inp.to_address) = false ∨
          (pyStrip inp.to_address).data.length ≠ 42)) :
    (simulate_transaction eng inp env).success = false ∧
    (∃ a, (simulate_transaction eng inp env).error =
       some ("Invalid address: " ++ ("Invalid address format: " ++ a))) ∧
    rpcCalls eng inp env = [] := by
  unfold simulate_transaction rpcCalls simulate_transaction_instr simulate_body
  rw [hW]
  by_cases hf : startsWith0x (pyStrip inp.from_address) = false ∨
      (pyStrip inp.from_address).data.length ≠ 42
  · have hef : normalize_address inp.from_address =
        Except.error ("Invalid address format: " ++ pyStrip inp.from_address) := by
      simp only [normalize_address]
      rw [if_pos hf]
    rw [hef]
    refine ⟨by simp [failResult], ⟨pyStrip inp.from_address, by simp [failResult]⟩,
      by simp⟩
  · have hof : normalize_address inp.from_address =
        Except.ok (pyStrip inp.from_address) := by
      simp only [normalize_address]
      rw [if_neg hf]
    have ht : startsWith0x (pyStrip inp.to_address) = false ∨
        (pyStrip inp.to_address).data.length ≠ 42 := by
      rcases h with h | h
      · exact absurd h hf
      · exact h
    have het : normalize_address inp.to_address =
        Except.error ("Invalid address format: " ++ pyStrip inp.to_address) := by
      simp only [normalize_address]
      rw [if_pos ht]
    rw [hof, het]
    refine ⟨by simp [failResult], ⟨pyStrip inp.to_address, by simp [failResult]⟩,
      by simp⟩

theorem c4_invalid_address_witness :
    (simulate_transaction engEx inpBadAddr envAllOk).success = false ∧
    (∃ a, (simulate_transaction engEx inpBadAddr envAllOk).error =
       some ("Invalid address: " ++ ("Invalid address format: " ++ a))) ∧
    rpcCalls engEx inpBadAddr envAllOk = [] :=
  c4_invalid_address engEx inpBadAddr envAllOk (by decide)
    (Or.inl (Or.inr (by decide)))

/-- Claim C5 as stated is false in one corner: when the simulate-call
step records an error whose text is the empty string, `if not error_msg:`
treats it as unset (Python falsiness) and the gas-estimation message
overwrites it. -/
theorem c5_counterexample :
    simCallError envEmptyErr = some "" ∧
    (simulate_transaction engEx inpOk envEmptyErr).success = false ∧
    (simulate_transaction engEx inpOk envEmptyErr).error =
      some "Gas estimation failed: boom" := by
  exact ⟨by decide, by decide, by decide⟩

/-- Claim C5, amended: if the estimate-gas query fails then, regardless
of the other two queries, `gas_used` is 21000; the error field is set to
the gas-estimation message exactly when the step-1 error is unset or the
empty string (Python truthiness) — a non-empty step-1 error is never
overwritten. -/
theorem c5_amended (eng : SimulationEngine) (inp : SimInputs) (env : RpcEnv)
    (m : String)
    (hr : reachesRpc eng inp = true)
    (hg : env.gasEstimateR = Except.error m) :
    (simulate_transaction eng inp env).gas_used = some 21000 ∧
    (simulate_transaction eng inp env).error =
      (if pyFalsyStr (simCallError env) = true
       then some ("Gas estimation failed: " ++ m)
       else simCallError env) := by
  obtain ⟨hW, ⟨fa, hf⟩, ⟨ta, ht⟩, ⟨v, hv⟩, ⟨g, hgas⟩, ⟨gp, hgp⟩⟩ :=
    reaches_elim eng inp hr
  rw [(sim_eq_rpcPhase eng inp env fa ta v g gp hW hf ht hv hgas hgp).1]
  constructor
  · simp [rpcPhase, gasEstimateUsed, hg]
  · simp only [rpcPhase]
    unfold errorAfterGas
    rw [hg]

theorem c5_amended_witness :
    (simulate_transaction engEx inpOk envGasFail).gas_used = some 21000 ∧
    (simulate_transaction engEx inpOk envGasFail).error =
      some ("Gas estimation failed: " ++ "boom") := by
  have h := c5_amended engEx inpOk envGasFail "boom" (by decide) (by decide)
  refine ⟨h.1, ?_⟩
  rw [h.2]
  decide

/-- Claim C6 as stated is false twice over: a request that fails before
the gas-estimation query (unsupported chain 999) has no `gas_used` value
at all, and a successful estimate-gas query smaller than 21000 (here
100) is passed through unclamped. -/
theorem c6_counterexample :
    (simulate_transaction engEx inp999 envAllOk).gas_used = none ∧
    (simulate_transaction engEx inpOk envLow).gas_used = some 100 ∧
    ¬ 21000 ≤ (100 : Nat) := by
  exact ⟨by decide, by decide, by decide⟩

/-- Claim C6, amended: `gas_used` is defined exactly for requests that
reach the RPC phase; there it equals the reported estimate when
estimation succeeds (whatever its size) and falls back to 21000 — hence
is never zero — when estimation fails; early-failing requests return no
`gas_used` at all. -/
theorem c6_amended (eng : SimulationEngine) (inp : SimInputs) (env : RpcEnv) :
    (reachesRpc eng inp = true →
       (simulate_transaction eng inp env).gas_used = some (gasEstimateUsed env) ∧
       (∀ m, env.gasEstimateR = Except.error m → 21000 ≤ gasEstimateUsed env)) ∧
    (reachesRpc eng inp = false →
       (simulate_transaction eng inp env).gas_used = none) := by
  constructor
  · intro hr
    obtain ⟨hW, ⟨fa, hf⟩, ⟨ta, ht⟩, ⟨v, hv⟩, ⟨g, hg⟩, ⟨gp, hgp⟩⟩ :=
      reaches_elim eng inp hr
    rw [(sim_eq_rpcPhase eng inp env fa ta v g gp hW hf ht hv hg hgp).1]
    refine ⟨by simp [rpcPhase], ?_⟩
    intro m hm
    simp [gasEstimateUsed, hm]
  · intro hr
    obtain ⟨msg, hmsg⟩ := sim_not_reaches eng inp env hr
    rw [hmsg]
    rfl

theorem c6_amended_witness :
    (simulate_transaction engEx inpOk envGasFail).gas_used =
      some (gasEstimateUsed envGasFail) :=
  ((c6_amended engEx inpOk envGasFail).1 (by decide)).1

/-- Claim C7 as stated is false: the decimal branch of the value parser
accepts a leading minus sign, so the raw string `-5` is accepted by
normalization and the canonical value placed in the outbound payload is
the negative integer -5. -/
theorem c7_counterexample :
    parseHexOrDec "-5" = Except.ok (-5) ∧
    reachesRpc engEx inpNeg = true ∧
    (-5 : Int) < 0 := by
  exact ⟨by decide, by decide, by decide⟩

/-- Claim C7, amended: every `0x`-prefixed value string accepted by the
parser yields a non-negative integer, while decimal strings may carry a
leading sign and parse to a negative value; every amount field in the
emitted asset changes is nonetheless non-negative, because an entry is
emitted only when the value is strictly positive. -/
theorem c7_amended :
    (∀ s n, startsWith0x s = true → parseHexOrDec s = Except.ok n → 0 ≤ n) ∧
    (∀ fa ta v d c, c ∈ analyze_asset_changes fa ta v d →
       0 ≤ c.amount_wei ∧ 0 ≤ c.amount_eth) := by
  constructor
  · intro s n h0x hp
    unfold parseHexOrDec at hp
    rw [h0x] at hp
    simp only [if_true] at hp
    cases hpi : pyInt 16 s with
    | none => rw [hpi] at hp; exact absurd hp (by simp)
    | some k =>
      rw [hpi] at hp
      have hkn : k = n := Except.ok.inj hp
      subst hkn
      obtain ⟨t, hd⟩ := startsWith0x_elim h0x
      unfold pyInt at hpi
      rw [hd] at hpi
      obtain ⟨u, hu⟩ := pyStripChars_0x t
      rw [hu] at hpi
      simp only [pyIntChars] at hpi
      split_ifs at hpi with h1 h2
      · exact absurd h1 (by decide)
      · exact absurd h2 (by decide)
      cases hk : pyIntNat 16 ('0' :: u) with
      | none => rw [hk] at hpi; simp at hpi
      | some m =>
        rw [hk] at hpi
        simp at hpi
        rw [← hpi]
        exact Int.natCast_nonneg m
  · intro fa ta v d c hc
    unfold analyze_asset_changes at hc
    split at hc
    · rw [List.mem_singleton] at hc
      subst hc
      rename_i hv
      refine ⟨le_of_lt hv, ?_⟩
      have : (0 : ℚ) ≤ (v : ℚ) := by exact_mod_cast le_of_lt hv
      positivity
    · exact absurd hc (List.not_mem_nil c)

theorem c7_amended_witness :
    ((0 : Int) ≤ 10000000) ∧
    (0 ≤ acEx.amount_wei ∧ 0 ≤ acEx.amount_eth) := by
  constructor
  · exact c7_amended.1 "0x989680" 10000000 (by decide) (by decide)
  · have hm : acEx ∈ analyze_asset_changes addrA addrB 10000000 "0x" := by
      unfold analyze_asset_changes
      rw [if_pos (by decide : (0 : Int) < 10000000)]
      exact List.mem_singleton.mpr rfl
    exact c7_amended.2 addrA addrB 10000000 "0x" acEx hm

/-- Claim C8: for every request that reaches the asset-change step, a
strictly positive normalized value yields exactly one NATIVE/TRANSFER
entry from the sender to the recipient for that amount, a zero value
yields no entry regardless of the call data, and the input value
`0x989680` normalizes to 10000000. -/
theorem c8_native_transfer (eng : SimulationEngine) (inp : SimInputs)
    (env : RpcEnv) (fa ta : String) (v : Int) (g gp : Option Int)
    (h1 : hasW3 eng inp.chain_id = true)
    (h2 : normalize_address inp.from_address = Except.ok fa)
    (h3 : normalize_address inp.to_address = Except.ok ta)
    (h4 : parseHexOrDec inp.value = Except.ok v)
    (h5 : parseOptNum inp.gas = Except.ok g)
    (h6 : parseOptNum inp.gas_price = Except.ok gp) :
    (0 < v → (simulate_transaction eng inp env).asset_changes =
       some [{ asset_type := "NATIVE", change_type := "TRANSFER",
               from_addr := fa, to_addr := ta, amount_wei := v,
               amount_eth := (v : ℚ) / 10 ^ 18, symbol := "ETH" }]) ∧
    (v = 0 → (simulate_transaction eng inp env).asset_changes = some []) ∧
    parseHexOrDec "0x989680" = Except.ok 10000000 := by
  have hs := (sim_eq_rpcPhase eng inp env fa ta v g gp h1 h2 h3 h4 h5 h6).1
  refine ⟨?_, ?_, by decide⟩
  · intro hv
    rw [hs]
    simp [rpcPhase, analyze_asset_changes, hv]
  · intro hv
    subst hv
    rw [hs]
    simp [rpcPhase, analyze_asset_changes]

theorem c8_native_transfer_witness :
    (simulate_transaction engEx inp989680 envAllOk).asset_changes =
      some [{ asset_type := "NATIVE", change_type := "TRANSFER",
              from_addr := addrA, to_addr := addrB,
              amount_wei := 10000000,
              amount_eth := ((10000000 : Int) : ℚ) / 10 ^ 18,
              symbol := "ETH" }] :=
  (c8_native_transfer engEx inp989680 envAllOk addrA addrB 10000000 none none
    (by decide) (by decide) (by decide) (by decide) (by decide) (by decide)).1
    (by decide)

theorem usdRaw_env30_gt : (10 : ℚ) < usdRaw inpOk.chain_id env30 := by
  have h : usdRaw inpOk.chain_id env30 = 30 := by
    simp only [usdRaw, gasCostEth, gasEstimateUsed, gasPriceUsed, get_eth_price,
      env30, inpOk]
    norm_num
  rw [h]
  norm_num

theorem usdRaw_envBig_val : usdRaw inpOk.chain_id envBig = 500001 / 50000 := by
  simp only [usdRaw, gasCostEth, gasEstimateUsed, gasPriceUsed, get_eth_price,
    envBig, inpOk]
  norm_num

theorem roundTo4_ten : roundTo4 ((500001 : ℚ) / 50000) = 10 := by
  simp only [roundTo4, roundHalfEven]
  have h1 : (500001 : ℚ) / 50000 * 10000 = 500001 / 5 := by norm_num
  rw [h1]
  have hf : ⌊(500001 : ℚ) / 5⌋ = 100000 := by
    rw [Int.floor_eq_iff]
    constructor
    · push_cast
      norm_num
    · push_cast
      norm_num
  rw [hf]
  rw [if_pos (by push_cast; norm_num)]
  push_cast
  norm_num

/-- Claim C9 as stated is false: the warnings are generated from the
pre-rounding USD cost, while the result's `gas_cost_usd` field holds the
value rounded to four places.  With a raw cost of 10.00002 the high-cost
warning is emitted, yet the field holds exactly 10, which is not
strictly greater than 10. -/
theorem c9_counterexample :
    (warnHighCost (fmtFixed2 (usdRaw inpOk.chain_id envBig)) ∈
       ((simulate_transaction engEx inpOk envBig).warnings.getD [])) ∧
    (simulate_transaction engEx inpOk envBig).gas_cost_usd = some 10 ∧
    ¬ ((10 : ℚ) < 10) := by
  have hs := (sim_eq_rpcPhase engEx inpOk envBig addrA addrB 0 none none
    (by decide) (by decide) (by decide) (by decide) (by decide) (by decide)).1
  have hgt : (10 : ℚ) < usdRaw inpOk.chain_id envBig := by
    rw [usdRaw_envBig_val]
    norm_num
  refine ⟨?_, ?_, by norm_num⟩
  · rw [hs]
    simp only [rpcPhase, Option.getD_some]
    exact (mem_warnings_highCost _ _ _ _).mpr hgt
  · rw [hs]
    simp only [rpcPhase]
    rw [usdRaw_envBig_val, roundTo4_ten]

/-- Claim C9, amended: for every result produced by the full pipeline,
`warnings` contains the high-cost warning iff the pre-rounding USD cost
is strictly greater than 10, and the extreme-cost warning iff it is
strictly greater than 50 (so both appear together above 50, and the
thresholds themselves trigger nothing); the `gas_cost_usd` field of the
result holds that cost rounded to 4 decimals, so the biconditional
against the field itself can fail within rounding distance of the
threshold. -/
theorem c9_amended (eng : SimulationEngine) (inp : SimInputs) (env : RpcEnv)
    (hr : reachesRpc eng inp = true) :
    ((warnHighCost (fmtFixed2 (usdRaw inp.chain_id env)) ∈
        ((simulate_transaction eng inp env).warnings.getD [])) ↔
      10 < usdRaw inp.chain_id env) ∧
    ((warnExtreme ∈ ((simulate_transaction eng inp env).warnings.getD [])) ↔
      50 < usdRaw inp.chain_id env) := by
  obtain ⟨hW, ⟨fa, hf⟩, ⟨ta, ht⟩, ⟨v, hv⟩, ⟨g, hg⟩, ⟨gp, hgp⟩⟩ :=
    reaches_elim eng inp hr
  rw [(sim_eq_rpcPhase eng inp env fa ta v g gp hW hf ht hv hg hgp).1]
  simp only [rpcPhase, Option.getD_some]
  exact ⟨mem_warnings_highCost _ _ _ _, mem_warnings_extreme _ _ _ _⟩

theorem c9_amended_witness :
    warnHighCost (fmtFixed2 (usdRaw inpOk.chain_id env30)) ∈
      ((simulate_transaction engEx inpOk env30).warnings.getD []) :=
  (c9_amended engEx inpOk env30 (by decide)).1.mpr usdRaw_env30_gt

/-- Claim C10: the warning generator only ever emits its warnings in the
fixed source order — failure, high gas usage, high cost, extreme cost,
no transfers — i.e. every output is a sublist of that five-element
sequence. -/
theorem c10_warning_order (s : Bool) (g : Nat) (u : ℚ) (a : List AssetChange) :
    List.Sublist (generate_warnings s g u a)
      [warnFail, warnHighGas (fmtComma g), warnHighCost (fmtFixed2 u),
       warnExtreme, warnNoTransfers] := by
  unfold generate_warnings
  simp only [List.append_assoc]
  apply opt_append_sublist
  apply opt_append_sublist
  apply opt_append_sublist
  apply opt_append_sublist
  split
  · exact List.Sublist.refl _
  · exact List.nil_sublist _
